import Mathlib

/-!
Verification of the ELLA voice assistant (`src/main.py`) against its
natural-language specification.

The Python module is shallowly embedded below:

* Python string primitives used by the program (`str.strip`, `str.lstrip`,
  `str.lower`, `str.startswith`, slicing) are modelled over `List Char`
  (the ASCII fragment, which is all the program's literals use).
* `listen_and_transcribe` is modelled as a fold over the finite trace of
  recognizer outcomes (`AcceptWaveform` returning false, or true together
  with the `text` field of `Result()`), returning the first actionable
  utterance, or `none` if the trace ends while still listening.
* The audio callback / consumer hand-off (`queue.Queue`) is modelled as an
  interleaved trace of atomic `push`/`pop` operations on a FIFO state; a
  `pop` arriving while the queue is empty blocks, i.e. has no effect at
  that point of the trace.
* `query_chatgpt` is modelled as a total function of an environment record
  capturing module availability, `os.getenv('OPENAI_API_KEY')`, and the
  outcome of the network call (an exception message, a well-formed payload,
  or a payload on which the `['choices'][0]['message']['content']` access
  raises); the `try/except` blocks of the source become matches on that
  outcome, and the second component of the result records whether
  `openai.ChatCompletion.create` was invoked.
* The body of `main`'s `while True:` loop, from a transcribed utterance to
  the observable effects it triggers, is `loopStep`, producing the ordered
  list of `speak` / `query_chatgpt` / console-print actions.
-/

namespace Ella

/-- Python whitespace test on the ASCII range (the characters stripped by
`str.strip()` with no argument): space, tab, newline, carriage return,
vertical tab, form feed. -/
def pyIsSpace (c : Char) : Bool :=
  decide (c.toNat = 32 ∨ c.toNat = 9 ∨ c.toNat = 10 ∨ c.toNat = 13 ∨
    c.toNat = 11 ∨ c.toNat = 12)

/-- `str.strip()` on the underlying character list: drop whitespace from the
front, then from the back. -/
def pyStripData (cs : List Char) : List Char :=
  List.rdropWhile pyIsSpace (cs.dropWhile pyIsSpace)

/-- Python `s.strip()`. -/
def pyStrip (s : String) : String :=
  String.mk (pyStripData s.data)

/-- Python `s.lstrip(chars)`: drop leading characters belonging to `chars`. -/
def pyLstrip (chars : List Char) (s : String) : String :=
  String.mk (s.data.dropWhile (fun c => chars.contains c))

/-- Python `s.lower()` on the ASCII fragment (`Char.toLower` maps exactly
the basic latin uppercase letters down by 32, as CPython does for ASCII). -/
def pyLower (s : String) : String :=
  String.mk (s.data.map Char.toLower)

/-- Python `s[n:]` (character slicing). -/
def pyDrop (n : Nat) (s : String) : String :=
  String.mk (s.data.drop n)

/-- Character-list test used to model Python `s.startswith(w)`. -/
def listStarts : List Char → List Char → Bool
  | [], _ => true
  | _ :: _, [] => false
  | a :: as, b :: bs => a = b && listStarts as bs

/-- Python `s.startswith(w)`. -/
def pyStartsWith (w s : String) : Bool :=
  listStarts w.data s.data

/-- The wake phrase checked at `main.py:115`. -/
def wake : String := "ella"

/-- The punctuation set of `lstrip(',.:;!')` at `main.py:117`. -/
def punct : List Char := [',', '.', ':', ';', '!']

/-- `main.py:117`: `query = text[len('ella'):].strip().lstrip(',.:;!')`. -/
def extractQuery (text : String) : String :=
  pyLstrip punct (pyStrip (pyDrop 4 text))

/-- Observable actions one iteration of `main`'s loop can perform after a
transcription is returned: a `speak(...)` call, a `query_chatgpt(...)` call,
or a console `print`. -/
inductive Action where
  | speak (text : String)
  | askChat (prompt : String)
  | echo (line : String)
  deriving DecidableEq, Repr

/-- The body of the `while True:` loop of `main` (`main.py:113-125`), from
the transcription `text` to the ordered list of observable actions, with the
answer of `query_chatgpt` abstracted as `chat`. -/
def loopStep (chat : String → String) (text : String) : List Action :=
  if text = "" then []
  else if pyStartsWith wake text = false then []
  else if extractQuery text = "" then [Action.speak "Yes?"]
  else [Action.echo ("User: " ++ extractQuery text), Action.speak "Thinking...",
        Action.askChat (extractQuery text),
        Action.echo ("ELLA: " ++ chat (extractQuery text)),
        Action.speak (chat (extractQuery text))]

/-- One step of the recognizer inside `listen_and_transcribe`
(`main.py:63-71`): either `rec.AcceptWaveform(data)` returned false (keep
collecting audio), or it returned true and `Result()` carried the given raw
`text` field. -/
inductive RecOutcome where
  | keepBuffering
  | final (raw : String)
  deriving DecidableEq, Repr

/-- `listen_and_transcribe` (`main.py:45-72`) over a finite trace of
recognizer outcomes: return the first `Final` text that is non-empty after
`.strip()`, lower-cased; `none` models a trace that ends while the
`while True:` loop is still listening. -/
def listen_and_transcribe : List RecOutcome → Option String
  | [] => none
  | RecOutcome.keepBuffering :: rest => listen_and_transcribe rest
  | RecOutcome.final raw :: rest =>
    if pyStrip raw = "" then listen_and_transcribe rest
    else some (pyLower (pyStrip raw))

/-- An atomic operation on the frame queue of `listen_and_transcribe`: the
audio callback's `q.put(bytes(indata))` or the consumer's `q.get()`. -/
inductive QOp (α : Type) where
  | push (a : α)
  | pop
  deriving DecidableEq, Repr

/-- The frames pushed by a trace, in order. -/
def pushedOf {α : Type} : List (QOp α) → List α
  | [] => []
  | QOp.push a :: ops => a :: pushedOf ops
  | QOp.pop :: ops => pushedOf ops

/-- Run an interleaved single-producer / single-consumer trace against a
FIFO queue state (`queue.Queue`): `push` appends at the back, `pop` removes
the front; a `pop` scheduled while the queue is empty blocks, i.e. has no
effect at that point of the trace. Returns the final queue contents and the
sequence of popped frames, in order. -/
def runQueue {α : Type} : List (QOp α) → List α → List α × List α
  | [], q => (q, [])
  | QOp.push a :: ops, q => runQueue ops (q ++ [a])
  | QOp.pop :: ops, [] => runQueue ops []
  | QOp.pop :: ops, a :: q =>
    let r := runQueue ops q
    (r.1, a :: r.2)

/-- The shape of `response['choices'][0]['message']['content']` access in
`query_chatgpt`: either the payload is well formed and yields `content`, or
the access raises (caught by the second `try/except`). -/
inductive ChatPayload where
  | wellFormed (content : String)
  | malformed
  deriving DecidableEq, Repr

/-- Environment `query_chatgpt` runs in: whether `import openai` succeeded,
the value of `os.getenv('OPENAI_API_KEY')`, and what
`openai.ChatCompletion.create` would do if invoked (raise with a message, or
return a payload). -/
structure ChatEnv where
  openai_available : Bool
  api_key : Option String
  create_outcome : Except String ChatPayload
  deriving Repr

/-- The fallback returned when `OPENAI_API_KEY` is unset or empty
(`main.py:81`). -/
def noKeyMsg : String :=
  "No OpenAI API key found. Please set the OPENAI_API_KEY environment variable."

/-- Python truthiness of `os.getenv(...)`: falsy when unset or empty. -/
def keyFalsy : Option String → Bool
  | none => true
  | some s => s = ""

/-- `query_chatgpt` (`main.py:76-97`). The first component is the returned
string; the second records whether `openai.ChatCompletion.create` was
reached (a network request made). Every `except` of the source is a `match`
arm here, so the function is total: no exception escapes. -/
def query_chatgpt (env : ChatEnv) (prompt : String) : String × Bool :=
  if env.openai_available = false then
    ("The ChatGPT API is not available in this environment.", false)
  else if keyFalsy env.api_key then (noKeyMsg, false)
  else
    match env.create_outcome with
    | Except.error exc => ("Error contacting ChatGPT: " ++ exc, true)
    | Except.ok (ChatPayload.wellFormed content) => (pyStrip content, true)
    | Except.ok ChatPayload.malformed =>
      ("I received an unexpected response from ChatGPT.", true)

/-- The diagnostic raised by `load_vosk_model` (`main.py:36-40`); `{m!r}`
is modelled for quote-free paths as wrapping in `'` (`\x27`). -/
def vosk_missing_msg (model_dir : String) : String :=
  "Vosk model directory \x27" ++ model_dir ++
    "\x27 not found. Download a model from https://alphacephei.com/vosk/models and extract it into this directory."

/-- `load_vosk_model` (`main.py:34-41`): raises `FileNotFoundError` with the
diagnostic when `os.path.isdir(model_dir)` is false, otherwise returns the
loaded model (abstracted to `Unit`). -/
def load_vosk_model (dirExists : Bool) (model_dir : String) : Except String Unit :=
  if dirExists = false then Except.error (vosk_missing_msg model_dir)
  else Except.ok ()

/-- Observable outcome of `main`'s startup (`main.py:100-110`): either the
process leaves `main` with the given exit status after printing the given
stderr and stdout lines (never having entered the capture loop), or it
reaches the `while True:` capture loop. -/
inductive StartOutcome where
  | exit (code : Nat) (stderrLines stdoutLines : List String)
  | loop
  deriving DecidableEq, Repr

/-- `main`'s startup (`main.py:100-110`): on `FileNotFoundError` the handler
prints the exception to stderr, prints an advisory line to stdout, and
`return`s — so the script (`main()` called at module level) finishes with
exit status `0`. Otherwise the loop is entered. -/
def mainStartup (dirExists : Bool) (model_dir : String) : StartOutcome :=
  match load_vosk_model dirExists model_dir with
  | Except.error msg =>
    StartOutcome.exit 0 [msg]
      ["Please download a Vosk model and place it in the specified directory."]
  | Except.ok _ => StartOutcome.loop

/-- Exit status of a startup outcome, `none` when the loop was entered. -/
def exitCodeOf : StartOutcome → Option Nat
  | StartOutcome.exit code _ _ => some code
  | StartOutcome.loop => none

/-! ## Helper lemmas -/

theorem toNat_ofNat_valid {n : Nat} (h : n < 55296) : (Char.ofNat n).toNat = n := by
  unfold Char.ofNat
  rw [dif_pos (Or.inl h)]
  rfl

theorem toNat_toLower (c : Char) :
    (Char.toLower c).toNat =
      if 65 ≤ c.toNat ∧ c.toNat ≤ 90 then c.toNat + 32 else c.toNat := by
  show (if c.toNat ≥ 65 ∧ c.toNat ≤ 90 then Char.ofNat (c.toNat + 32) else c).toNat = _
  by_cases h : 65 ≤ c.toNat ∧ c.toNat ≤ 90
  · rw [if_pos h, if_pos h, toNat_ofNat_valid (by omega)]
  · rw [if_neg h, if_neg h]

theorem pyIsSpace_toLower (c : Char) : pyIsSpace (Char.toLower c) = pyIsSpace c := by
  unfold pyIsSpace
  rw [toNat_toLower]
  by_cases h : 65 ≤ c.toNat ∧ c.toNat ≤ 90
  · rw [if_pos h]
    simp only [decide_eq_decide]
    omega
  · rw [if_neg h]

theorem toLower_eq_self (c : Char) (h : ¬(65 ≤ c.toNat ∧ c.toNat ≤ 90)) :
    Char.toLower c = c := by
  show (if c.toNat ≥ 65 ∧ c.toNat ≤ 90 then Char.ofNat (c.toNat + 32) else c) = c
  rw [if_neg h]

theorem toLower_not_upper (c : Char) :
    ¬(65 ≤ (Char.toLower c).toNat ∧ (Char.toLower c).toNat ≤ 90) := by
  rw [toNat_toLower]
  by_cases h : 65 ≤ c.toNat ∧ c.toNat ≤ 90
  · rw [if_pos h]
    omega
  · rw [if_neg h]
    exact h

theorem toLower_idem (c : Char) :
    Char.toLower (Char.toLower c) = Char.toLower c :=
  toLower_eq_self _ (toLower_not_upper c)

theorem data_append (s t : String) : (s ++ t).data = s.data ++ t.data := by
  cases s
  cases t
  rfl

theorem pyLower_ne_empty (s : String) (h : s ≠ "") : pyLower s ≠ "" := by
  obtain ⟨d⟩ := s
  intro hc
  apply h
  have hd : d.map Char.toLower = [] := String.ext_iff.mp hc
  have : d = [] := by simpa using hd
  rw [this]

theorem dropWhile_eq_self_of_head (p : Char → Bool) (l : List Char)
    (h : ∀ c, l.head? = some c → p c = false) : List.dropWhile p l = l := by
  cases l with
  | nil => rfl
  | cons a as =>
    rw [List.dropWhile_cons, h a rfl]
    simp

theorem head?_dropWhile (p : Char → Bool) (l : List Char) (c : Char)
    (h : (List.dropWhile p l).head? = some c) : p c = false := by
  induction l with
  | nil => simp [List.dropWhile] at h
  | cons a as ih =>
    rw [List.dropWhile_cons] at h
    by_cases hpa : p a = true
    · rw [if_pos hpa] at h
      exact ih h
    · rw [if_neg hpa] at h
      have : a = c := by simpa using h
      subst this
      simpa using hpa

theorem head?_append_left {α : Type} (l₁ l₂ : List α) (h : l₁ ≠ []) :
    (l₁ ++ l₂).head? = l₁.head? := by
  cases l₁ with
  | nil => exact absurd rfl h
  | cons a as => rfl

theorem dropWhile_pyStripData (l : List Char) :
    List.dropWhile pyIsSpace (pyStripData l) = pyStripData l := by
  apply dropWhile_eq_self_of_head
  intro c hc
  obtain ⟨t, ht⟩ :=
    List.rdropWhile_prefix pyIsSpace (List.dropWhile pyIsSpace l)
  have hne : pyStripData l ≠ [] := by
    intro h0
    rw [h0] at hc
    simp at hc
  have hX : pyStripData l ++ t = List.dropWhile pyIsSpace l := ht
  have hw : (List.dropWhile pyIsSpace l).head? = some c := by
    rw [← hX, head?_append_left _ _ hne]
    exact hc
  exact head?_dropWhile pyIsSpace l c hw

theorem rdropWhile_pyStripData (l : List Char) :
    List.rdropWhile pyIsSpace (pyStripData l) = pyStripData l := by
  unfold pyStripData
  exact List.rdropWhile_idempotent _ _

theorem pyStripData_idem (l : List Char) :
    pyStripData (pyStripData l) = pyStripData l := by
  show List.rdropWhile pyIsSpace (List.dropWhile pyIsSpace (pyStripData l)) = pyStripData l
  rw [dropWhile_pyStripData, rdropWhile_pyStripData]

theorem dropWhile_map_toLower (l : List Char) :
    List.dropWhile pyIsSpace (l.map Char.toLower) =
      (List.dropWhile pyIsSpace l).map Char.toLower := by
  rw [List.dropWhile_map]
  have h : pyIsSpace ∘ Char.toLower = pyIsSpace := funext pyIsSpace_toLower
  rw [h]

theorem pyStripData_map_toLower (l : List Char) :
    pyStripData (l.map Char.toLower) = (pyStripData l).map Char.toLower := by
  unfold pyStripData List.rdropWhile
  rw [dropWhile_map_toLower, ← List.map_reverse, dropWhile_map_toLower,
    ← List.map_reverse]

theorem pyStrip_pyLower_pyStrip (t : String) :
    pyStrip (pyLower (pyStrip t)) = pyLower (pyStrip t) := by
  apply String.ext
  show pyStripData ((pyStripData t.data).map Char.toLower) =
    (pyStripData t.data).map Char.toLower
  rw [pyStripData_map_toLower, pyStripData_idem]

theorem pyLower_idem (s : String) : pyLower (pyLower s) = pyLower s := by
  apply String.ext
  show (s.data.map Char.toLower).map Char.toLower = s.data.map Char.toLower
  rw [List.map_map]
  have h : Char.toLower ∘ Char.toLower = Char.toLower := funext toLower_idem
  rw [h]

theorem loopStep_no_wake (chat : String → String) (text : String)
    (h : pyStartsWith wake text = false) : loopStep chat text = [] := by
  unfold loopStep
  by_cases h0 : text = ""
  · rw [if_pos h0]
  · rw [if_neg h0, if_pos h]

theorem wake_not_on_empty : pyStartsWith wake "" = false := rfl

theorem loopStep_bare (chat : String → String) (text : String)
    (hw : pyStartsWith wake text = true) (hq : extractQuery text = "") :
    loopStep chat text = [Action.speak "Yes?"] := by
  have h0 : text ≠ "" := by
    intro h
    rw [h, wake_not_on_empty] at hw
    exact Bool.false_ne_true hw
  have h1 : ¬ pyStartsWith wake text = false := by
    rw [hw]
    decide
  unfold loopStep
  rw [if_neg h0, if_neg h1, if_pos hq]

theorem loopStep_query (chat : String → String) (text : String)
    (hw : pyStartsWith wake text = true) (hq : extractQuery text ≠ "") :
    loopStep chat text =
      [Action.echo ("User: " ++ extractQuery text), Action.speak "Thinking...",
       Action.askChat (extractQuery text),
       Action.echo ("ELLA: " ++ chat (extractQuery text)),
       Action.speak (chat (extractQuery text))] := by
  have h0 : text ≠ "" := by
    intro h
    rw [h, wake_not_on_empty] at hw
    exact Bool.false_ne_true hw
  have h1 : ¬ pyStartsWith wake text = false := by
    rw [hw]
    decide
  unfold loopStep
  rw [if_neg h0, if_neg h1, if_neg hq]

theorem runQueue_spec {α : Type} (ops : List (QOp α)) (q : List α) :
    (runQueue ops q).2 ++ (runQueue ops q).1 = q ++ pushedOf ops := by
  induction ops generalizing q with
  | nil => simp [runQueue, pushedOf]
  | cons op ops ih =>
    cases op with
    | push a =>
      simp only [runQueue, pushedOf]
      rw [ih]
      simp
    | pop =>
      cases q with
      | nil =>
        simp only [runQueue, pushedOf]
        exact ih []
      | cons b bq =>
        simp only [runQueue, pushedOf]
        rw [List.cons_append, ih]
        rfl

/-! ## Claim theorems -/

/-- Claim C1 (counterexample): for the utterance `"ella, , tell me a joke"`
the extracted query is NOT `"tell me a joke"`: `lstrip(',.:;!')` stops at the
first character outside the punctuation set, which here is the space after
the first comma. -/
theorem c1_counterexample :
    extractQuery "ella, , tell me a joke" ≠ "tell me a joke" := by decide

/-- Claim C1 (amended): for the utterance `"ella, , tell me a joke"` the
extracted query is exactly `" , tell me a joke"`: only the leading comma is
removed; the following space and second comma survive, because the
leading-punctuation strip stops at the first non-punctuation character
(whitespace included). -/
theorem c1_scenario3_query :
    extractQuery "ella, , tell me a joke" = " , tell me a joke" := by decide

/-- Claim C2 (counterexample): when the model directory is missing, `main`
prints the diagnostic and `return`s, so the process finishes with exit
status `0`, not a non-zero status. -/
theorem c2_counterexample :
    exitCodeOf (mainStartup false "models/vosk-en") = some 0 := rfl

/-- Claim C2 (amended): if the model directory does not exist at startup,
the process prints a diagnostic naming the missing directory (plus an
advisory stdout line) and exits with status ZERO without entering the
capture loop. -/
theorem c2_startup_diagnostic_exit_zero (model_dir : String) :
    mainStartup false model_dir =
      StartOutcome.exit 0 [vosk_missing_msg model_dir]
        ["Please download a Vosk model and place it in the specified directory."] ∧
    (∃ pre post, vosk_missing_msg model_dir = pre ++ model_dir ++ post) ∧
    mainStartup false model_dir ≠ StartOutcome.loop := by
  refine ⟨rfl, ⟨"Vosk model directory \x27",
    "\x27 not found. Download a model from https://alphacephei.com/vosk/models and extract it into this directory.",
    rfl⟩, ?_⟩
  intro h
  exact StartOutcome.noConfusion h

/-- Claim C3: `query_chatgpt` is total — in every environment (openai module
absent, `OPENAI_API_KEY` unset or empty, network call raising, malformed
upstream payload, well-formed payload) it returns a string and no exception
escapes; when the key is unset or empty it returns the fixed fallback naming
`OPENAI_API_KEY` and makes no network request (second component `false`). -/
theorem c3_query_chatgpt_total (prompt exc content : String)
    (ak : Option String) (kc : Char) (kcs : List Char)
    (co : Except String ChatPayload) :
    query_chatgpt ⟨false, ak, co⟩ prompt =
      ("The ChatGPT API is not available in this environment.", false) ∧
    query_chatgpt ⟨true, none, co⟩ prompt = (noKeyMsg, false) ∧
    query_chatgpt ⟨true, some "", co⟩ prompt = (noKeyMsg, false) ∧
    (∃ pre post, noKeyMsg = pre ++ "OPENAI_API_KEY" ++ post) ∧
    query_chatgpt ⟨true, some (String.mk (kc :: kcs)), Except.error exc⟩ prompt =
      ("Error contacting ChatGPT: " ++ exc, true) ∧
    query_chatgpt ⟨true, some (String.mk (kc :: kcs)),
        Except.ok ChatPayload.malformed⟩ prompt =
      ("I received an unexpected response from ChatGPT.", true) ∧
    query_chatgpt ⟨true, some (String.mk (kc :: kcs)),
        Except.ok (ChatPayload.wellFormed content)⟩ prompt =
      (pyStrip content, true) :=
  ⟨rfl, rfl, rfl,
   ⟨"No OpenAI API key found. Please set the ", " environment variable.", rfl⟩,
   rfl, rfl, rfl⟩

/-- Claim C4: a finalized utterance that does not start with the wake phrase
`"ella"` produces no actions at all: no speech, no `query_chatgpt` call, and
the loop returns to listening. -/
theorem c4_no_wake_no_action (chat : String → String) (text : String)
    (h : pyStartsWith wake text = false) : loopStep chat text = [] :=
  loopStep_no_wake chat text h

/-- Witness for C4 at `"good morning"` (end-to-end scenario 4). -/
theorem c4_witness : loopStep (fun q => q) "good morning" = [] :=
  c4_no_wake_no_action (fun q => q) "good morning" (by decide)

/-- Claim C5: an utterance that starts with the wake phrase and whose
remainder strips to the empty query makes the loop speak the acknowledgment
`"Yes?"` and nothing else — in particular `query_chatgpt` is not called. -/
theorem c5_bare_activation (chat : String → String) (text : String)
    (hw : pyStartsWith wake text = true) (hq : extractQuery text = "") :
    loopStep chat text = [Action.speak "Yes?"] :=
  loopStep_bare chat text hw hq

/-- Witness for C5 at the bare utterance `"ella"` (end-to-end scenario 2). -/
theorem c5_witness : loopStep (fun q => q) "ella" = [Action.speak "Yes?"] :=
  c5_bare_activation (fun q => q) "ella" (by decide) (by decide)

/-- Claim C6 (end-to-end scenario 1): for the utterance
`"ella what time is it"` the extracted query is exactly `"what time is it"`
and `query_chatgpt` is invoked with that exact string. -/
theorem c6_scenario1 (chat : String → String) :
    extractQuery "ella what time is it" = "what time is it" ∧
    loopStep chat "ella what time is it" =
      [Action.echo "User: what time is it", Action.speak "Thinking...",
       Action.askChat "what time is it",
       Action.echo ("ELLA: " ++ chat "what time is it"),
       Action.speak (chat "what time is it")] :=
  ⟨rfl, rfl⟩

/-- Claim C7: every string `listen_and_transcribe` returns is non-empty,
free of leading/trailing whitespace (`pyStrip`-fixed) and lower-cased
(`pyLower`-fixed); and a `Final` result whose normalized text is empty makes
the loop keep listening instead of returning. -/
theorem c7_transcription_normalized :
    (∀ outs s, listen_and_transcribe outs = some s →
      s ≠ "" ∧ pyStrip s = s ∧ pyLower s = s) ∧
    (∀ raw rest, pyStrip raw = "" →
      listen_and_transcribe (RecOutcome.final raw :: rest) =
        listen_and_transcribe rest) := by
  constructor
  · intro outs
    induction outs with
    | nil =>
      intro s h
      simp [listen_and_transcribe] at h
    | cons o rest ih =>
      intro s h
      cases o with
      | keepBuffering =>
        simp only [listen_and_transcribe] at h
        exact ih s h
      | final raw =>
        simp only [listen_and_transcribe] at h
        by_cases h0 : pyStrip raw = ""
        · rw [if_pos h0] at h
          exact ih s h
        · rw [if_neg h0] at h
          have hs : pyLower (pyStrip raw) = s := by
            injection h
          subst hs
          exact ⟨pyLower_ne_empty _ h0, pyStrip_pyLower_pyStrip raw,
            pyLower_idem _⟩
  · intro raw rest h0
    simp only [listen_and_transcribe, if_pos h0]

/-- Witness for C7: a concrete trace whose raw text `"  Hello  "` is
returned as the normalized `"hello"`, and an empty-after-strip `Final`
that is skipped. -/
theorem c7_witness :
    ("hello" ≠ "" ∧ pyStrip "hello" = "hello" ∧ pyLower "hello" = "hello") ∧
    listen_and_transcribe [RecOutcome.final " ", RecOutcome.final "Hi"] =
      listen_and_transcribe [RecOutcome.final "Hi"] :=
  ⟨c7_transcription_normalized.1 [RecOutcome.final "  Hello  "] "hello"
      (by decide),
   c7_transcription_normalized.2 " " [RecOutcome.final "Hi"] (by decide)⟩

/-- Claim C8: under any interleaving of the single producer and single
consumer, when the consumer has drained the queue the popped sequence equals
the pushed sequence — same order, nothing dropped or duplicated. -/
theorem c8_fifo {α : Type} (ops : List (QOp α))
    (h : (runQueue ops []).1 = []) :
    (runQueue ops []).2 = pushedOf ops := by
  have hs := runQueue_spec ops ([] : List α)
  rw [h, List.append_nil, List.nil_append] at hs
  exact hs

/-- Witness for C8 on a concrete interleaved trace. -/
theorem c8_witness :
    (runQueue [QOp.push 1, QOp.push 2, QOp.pop, QOp.pop] ([] : List Nat)).2 =
      pushedOf [QOp.push 1, QOp.push 2, QOp.pop, QOp.pop] :=
  c8_fifo _ (by decide)

/-- Claim C9: activation is a raw prefix check with no word boundary: every
utterance of the form `"ella" ++ rest` is treated as an activation (the step
always produces actions), its query is taken from the remainder after the
four characters, and concretely `"ellas night out"` activates with query
`"s night out"`. -/
theorem c9_no_word_boundary (chat : String → String) (rest : String) :
    extractQuery ("ella" ++ rest) = pyLstrip punct (pyStrip rest) ∧
    loopStep chat ("ella" ++ rest) ≠ [] ∧
    loopStep chat "ellas night out" =
      [Action.echo "User: s night out", Action.speak "Thinking...",
       Action.askChat "s night out",
       Action.echo ("ELLA: " ++ chat "s night out"),
       Action.speak (chat "s night out")] := by
  obtain ⟨rd⟩ := rest
  have hdrop : pyDrop 4 ("ella" ++ String.mk rd) = String.mk rd := by
    apply String.ext
    show (("ella" ++ String.mk rd).data).drop 4 = rd
    rw [data_append]
    rfl
  have hq : extractQuery ("ella" ++ String.mk rd) =
      pyLstrip punct (pyStrip (String.mk rd)) := by
    show pyLstrip punct (pyStrip (pyDrop 4 ("ella" ++ String.mk rd))) = _
    rw [hdrop]
  have hws : pyStartsWith wake ("ella" ++ String.mk rd) = true := by
    show listStarts wake.data ("ella" ++ String.mk rd).data = true
    rw [data_append]
    rfl
  refine ⟨hq, ?_, rfl⟩
  by_cases hempty : extractQuery ("ella" ++ String.mk rd) = ""
  · rw [loopStep_bare chat _ hws hempty]
    simp
  · rw [loopStep_query chat _ hws hempty]
    simp

/-- Claim C10: every activation with a non-empty query first speaks the
fixed filler `"Thinking..."`, then calls `query_chatgpt`, then speaks the
answer — exactly two `speak` invocations per answered query, with the filler
strictly before the `query_chatgpt` call. -/
theorem c10_thinking_filler (chat : String → String) (text : String)
    (hw : pyStartsWith wake text = true) (hq : extractQuery text ≠ "") :
    loopStep chat text =
      [Action.echo ("User: " ++ extractQuery text), Action.speak "Thinking...",
       Action.askChat (extractQuery text),
       Action.echo ("ELLA: " ++ chat (extractQuery text)),
       Action.speak (chat (extractQuery text))] :=
  loopStep_query chat text hw hq

/-- Witness for C10 at the utterance `"ella hi"` with the identity answerer. -/
theorem c10_witness :
    loopStep (fun q => q) "ella hi" =
      [Action.echo ("User: " ++ extractQuery "ella hi"),
       Action.speak "Thinking...",
       Action.askChat (extractQuery "ella hi"),
       Action.echo ("ELLA: " ++ extractQuery "ella hi"),
       Action.speak (extractQuery "ella hi")] :=
  c10_thinking_filler (fun q => q) "ella hi" (by decide) (by decide)

end Ella
